import Mathlib

/-!
Shallow embedding of `src/collector/evcc_collector.py` (TRMNL EVCC collector).

Python floats are modelled as rationals (ℚ); JSON fields that may be absent
are modelled as `Option`; `dict.get(k, d)` becomes `Option.getD`.  Python's
built-in `round` rounds half to even (banker's rounding) and is modelled by
`roundHalfEven` / `round1` / `round2`.  A JSON `null` stored under a key is
conflated with the key's absence wherever the code coalesces the two with
`or <default>`.  The HTTP layer (requests / BaseHTTPRequestHandler) is
modelled by passing outcomes in explicitly: a fetch is an
`Except Unit RawState`, a POST outcome is a `Bool`, and observable side
effects are recorded as an explicit `Eff` trace.
-/

/-- Round a rational to the nearest integer, ties to even: the behaviour of
Python 3's built-in `round(x)` on a float (idealised over ℚ). -/
def roundHalfEven (q : ℚ) : ℤ :=
  let n : ℤ := ⌊q⌋
  if q - n < 1/2 then n
  else if 1/2 < q - n then n + 1
  else if n % 2 = 0 then n else n + 1

/-- Round a rational to the nearest integer, ties away from zero.  Written
from the spec's words ("rounded half-away-from-zero"); Python's `round` does
NOT behave like this at ties. -/
def roundHalfAway (q : ℚ) : ℤ :=
  if 0 ≤ q then ⌊q + 1/2⌋ else -⌊-q + 1/2⌋

/-- Python `round(x, 1)`: one decimal digit, ties to even. -/
def round1 (q : ℚ) : ℚ := (roundHalfEven (q * 10) : ℚ) / 10

/-- Python `round(x, 2)`: two decimal digits, ties to even. -/
def round2 (q : ℚ) : ℚ := (roundHalfEven (q * 100) : ℚ) / 100

/-- Python `f"{x:.1f}"` for a nonnegative rational: one decimal digit. -/
def fmt1 (x : ℚ) : String :=
  let m := roundHalfEven (x * 10)
  toString (m / 10) ++ "." ++ toString (m % 10)

/-- Python `f"{n:02d}"` for 0 ≤ n < 100. -/
def pad2 (n : ℤ) : String :=
  if n < 10 then "0" ++ toString n else toString n

/-- Python `a % b` on floats for `b > 0`: `a - b * (a // b)`. -/
def qmod (a b : ℚ) : ℚ := a - b * ⌊a / b⌋

/-- Raw `grid` object of the EVCC state (`state["grid"]`, v0.207+).
`none` stands for an absent or non-dict `grid` entry. -/
structure GridRaw where
  power : Option ℚ := none
deriving DecidableEq

/-- One element of the raw `battery` list. -/
structure BatteryUnit where
  power : Option ℚ := none
  soc : Option ℚ := none
deriving DecidableEq

/-- One period of the raw `statistics` object. -/
structure PeriodStats where
  chargedKWh : Option ℚ := none
  solarPercentage : Option ℚ := none
  avgPrice : Option ℚ := none
deriving DecidableEq

/-- Raw `statistics` object with its two fixed periods `"30d"` and `"total"`. -/
structure StatisticsRaw where
  d30 : Option PeriodStats := none
  total : Option PeriodStats := none
deriving DecidableEq

/-- One raw loadpoint dict from the EVCC API (fields the collector reads). -/
structure Loadpoint where
  title : Option String := none
  mode : Option String := none
  charging : Option Bool := none
  connected : Option Bool := none
  enabled : Option Bool := none
  chargePower : Option ℚ := none
  chargedEnergy : Option ℚ := none
  chargeDuration : Option ℚ := none
  chargeRemainingDuration : Option ℚ := none
  sessionSolarPercentage : Option ℚ := none
  sessionPrice : Option ℚ := none
  vehicleTitle : Option String := none
  vehicleName : Option String := none
  vehicleSoc : Option ℚ := none
  vehicleRange : Option ℚ := none
  effectiveLimitSoc : Option ℚ := none
  planActive : Option Bool := none
  planTime : Option String := none
  phasesActive : Option ℚ := none
deriving DecidableEq

/-- The raw EVCC state document (after the `result` unwrapping), restricted
to the fields the collector reads. -/
structure RawState where
  siteTitle : Option String := none
  currency : Option String := none
  pvPower : Option ℚ := none
  grid : Option GridRaw := none
  gridPower : Option ℚ := none
  homePower : Option ℚ := none
  greenShareHome : Option ℚ := none
  tariffGrid : Option ℚ := none
  tariffFeedIn : Option ℚ := none
  tariffPriceHome : Option ℚ := none
  battery : Option (List BatteryUnit) := none
  loadpoints : Option (List Loadpoint) := none
  statistics : Option StatisticsRaw := none
deriving DecidableEq

/-- Collector configuration (the constructor arguments the payload path uses). -/
structure Config where
  webhook : Option String := none
  max_loadpoints : Nat := 4
  power_unit : String := "auto"
  dry_run : Bool := false
deriving DecidableEq

/-- `EVCCCollector.format_power` (lines 107-129).  `watts = none` models a
missing value; Python's falsy test `if watts` sends both `None` and `0` to
`0`. -/
def format_power (watts : Option ℚ) (unit : String) : String :=
  let w : ℚ := match watts with
    | none => 0
    | some x => if x = 0 then 0 else |x|
  if unit == "kW" then fmt1 (w / 1000) ++ " kW"
  else if unit == "W" then toString (roundHalfEven w) ++ " W"
  else if 1000 ≤ w then fmt1 (w / 1000) ++ " kW"
  else toString (roundHalfEven w) ++ " W"

/-- `EVCCCollector.format_duration` (lines 131-156). -/
def format_duration (seconds : Option ℚ) : String :=
  match seconds with
  | none => ""
  | some s =>
    if s = 0 then ""
    else if s < 60 then ""
    else if s < 3600 then toString ⌊s / 60⌋ ++ "m"
    else if s < 86400 then
      toString ⌊s / 3600⌋ ++ ":" ++ pad2 ⌊qmod s 3600 / 60⌋ ++ "h"
    else
      toString ⌊s / 86400⌋ ++ "d " ++ toString ⌊qmod s 86400 / 3600⌋ ++ "h"

/-- `EVCCCollector.MODE_LABELS.get(mode, mode)` (lines 49-54, 284). -/
def mode_label (m : String) : String :=
  if m == "off" then "Off"
  else if m == "pv" then "Solar"
  else if m == "minpv" then "Min+Solar"
  else if m == "now" then "Fast"
  else m

/-- `EVCCCollector.derive_status` (lines 158-182). -/
def derive_status (lp : Loadpoint) : String :=
  let connected := lp.connected.getD false
  let enabled := lp.enabled.getD false
  let charging := lp.charging.getD false
  let mode := lp.mode.getD ""
  if charging then "Charging"
  else if connected && enabled && !charging && (mode == "pv" || mode == "minpv") then
    "Waiting for solar"
  else if connected && enabled && !charging then "Finished"
  else if connected && !enabled then "Connected"
  else "Disconnected"

/-- The claim's reading of `DeriveStatus`: the five branches in the spec's
priority order, first match wins.  Kept separate from `derive_status` so the
code can be compared against the spec's words. -/
def deriveStatusSpec (lp : Loadpoint) : String :=
  let connected := lp.connected.getD false
  let enabled := lp.enabled.getD false
  let charging := lp.charging.getD false
  let mode := lp.mode.getD ""
  if charging then "Charging"
  else if connected && enabled && !charging && (mode == "pv" || mode == "minpv") then
    "Waiting for solar"
  else if connected && enabled && !charging then "Finished"
  else if connected && !enabled then "Connected"
  else "Disconnected"

/-- An order-free decision tree equivalent to the claim's priority list:
used to show the priority order resolves to this truth table. -/
def deriveStatusTable (lp : Loadpoint) : String :=
  let connected := lp.connected.getD false
  let enabled := lp.enabled.getD false
  let charging := lp.charging.getD false
  let mode := lp.mode.getD ""
  if charging then "Charging"
  else if !connected then "Disconnected"
  else if !enabled then "Connected"
  else if mode == "pv" || mode == "minpv" then "Waiting for solar"
  else "Finished"

/-- The raw grid power as `EVCCCollector.transform_energy` reads it
(lines 196-201): prefer `state["grid"]["power"]`, fall back to the legacy
flat `state["gridPower"]`, default `0`. -/
def grid_power_raw (state : RawState) : ℚ :=
  match state.grid with
  | some g =>
    match g.power with
    | some p => p
    | none => state.gridPower.getD 0
  | none => state.gridPower.getD 0

/-- Output record of `transform_energy`. -/
structure EnergyOut where
  pv_power : ℚ
  pv_power_formatted : String
  grid_power : ℚ
  grid_power_formatted : String
  grid_import : Bool
  home_power : ℚ
  home_power_formatted : String
  green_share_home : ℤ
  tariff_grid : Option ℚ
  tariff_feedin : Option ℚ
  tariff_price_home : Option ℚ
deriving DecidableEq

/-- `EVCCCollector.transform_energy` (lines 184-219). -/
def transform_energy (power_unit : String) (state : RawState) : EnergyOut :=
  let pv_power := state.pvPower.getD 0
  let gpr := grid_power_raw state
  let home_power := state.homePower.getD 0
  let green_share_raw := state.greenShareHome.getD 0
  { pv_power := pv_power
    pv_power_formatted := format_power (some pv_power) power_unit
    grid_power := |gpr|
    grid_power_formatted := format_power (some gpr) power_unit
    grid_import := decide (0 < gpr)
    home_power := home_power
    home_power_formatted := format_power (some home_power) power_unit
    green_share_home := roundHalfEven (green_share_raw * 100)
    tariff_grid := state.tariffGrid
    tariff_feedin := state.tariffFeedIn
    tariff_price_home := state.tariffPriceHome }

/-- Output record of `transform_battery`. -/
structure BatteryOut where
  configured : Bool
  soc : ℤ
  power : ℚ
  power_formatted : String
  charging : Bool
deriving DecidableEq

/-- `EVCCCollector.transform_battery` (lines 221-255). -/
def transform_battery (power_unit : String) (state : RawState) : BatteryOut :=
  let batteries := state.battery.getD []
  if batteries.isEmpty then
    { configured := false
      soc := 0
      power := 0
      power_formatted := format_power (some 0) power_unit
      charging := false }
  else
    let total_power := (batteries.map (fun b => b.power.getD 0)).sum
    let soc_values := batteries.map (fun b => b.soc.getD 0)
    let avg_soc := soc_values.sum / (soc_values.length : ℚ)
    { configured := true
      soc := roundHalfEven avg_soc
      power := total_power
      power_formatted := format_power (some total_power) power_unit
      charging := decide (0 < total_power) }

/-- Python `a or b` for an optional string `a` (empty string is falsy),
as in `lp.get("vehicleTitle") or lp.get("vehicleName")` (line 296). -/
def pyOrString (a b : Option String) : Option String :=
  match a with
  | some t => if t = "" then b else some t
  | none => b

/-- Output record of `transform_loadpoint`. -/
structure LoadpointOut where
  title : String
  mode : String
  mode_label : String
  charging : Bool
  connected : Bool
  enabled : Bool
  status : String
  charge_power : ℚ
  charge_power_formatted : String
  charged_energy_kwh : ℚ
  charge_duration_formatted : String
  charge_remaining_formatted : String
  session_solar_pct : ℤ
  session_price : Option ℚ
  vehicle_title : Option String
  vehicle_soc : ℤ
  vehicle_range : Option ℚ
  vehicle_connected : Bool
  limit_soc : Option ℚ
  plan_active : Bool
  plan_time : Option String
  phases_active : Option ℚ
deriving DecidableEq

/-- `EVCCCollector.transform_loadpoint` (lines 257-304). -/
def transform_loadpoint (power_unit : String) (lp : Loadpoint) : LoadpointOut :=
  let mode := lp.mode.getD "off"
  let charge_power := lp.chargePower.getD 0
  let charged_energy := lp.chargedEnergy.getD 0
  let session_solar_pct : ℤ := match lp.sessionSolarPercentage with
    | none => 0
    | some x => roundHalfEven x
  let session_price : Option ℚ := match lp.sessionPrice with
    | none => none
    | some p => some (round2 p)
  { title := lp.title.getD ""
    mode := mode
    mode_label := mode_label mode
    charging := lp.charging.getD false
    connected := lp.connected.getD false
    enabled := lp.enabled.getD false
    status := derive_status lp
    charge_power := charge_power
    charge_power_formatted := format_power (some charge_power) power_unit
    charged_energy_kwh := round1 (charged_energy / 1000)
    charge_duration_formatted := format_duration lp.chargeDuration
    charge_remaining_formatted := format_duration lp.chargeRemainingDuration
    session_solar_pct := session_solar_pct
    session_price := session_price
    vehicle_title := pyOrString lp.vehicleTitle lp.vehicleName
    vehicle_soc := roundHalfEven (lp.vehicleSoc.getD 0)
    vehicle_range := lp.vehicleRange
    vehicle_connected := lp.connected.getD false
    limit_soc := lp.effectiveLimitSoc
    plan_active := lp.planActive.getD false
    plan_time := lp.planTime
    phases_active := lp.phasesActive }

/-- Output record of one statistics period. -/
structure PeriodOut where
  charged_kwh : Option ℚ
  solar_pct : Option ℤ
  avg_price : Option ℚ
deriving DecidableEq

/-- Output record of `transform_statistics`: the two fixed periods. -/
structure StatsOut where
  d30 : PeriodOut
  total : PeriodOut
deriving DecidableEq

/-- Loop body of `EVCCCollector.transform_statistics` (lines 320-329) for
one period: `pd = stats.get(period, {})` flattened into an `Option`. -/
def transform_period (pd : Option PeriodStats) : PeriodOut :=
  let charged := pd.bind PeriodStats.chargedKWh
  let solar := pd.bind PeriodStats.solarPercentage
  let price := pd.bind PeriodStats.avgPrice
  { charged_kwh := match charged with
      | some c => some (round1 c)
      | none => none
    solar_pct := match solar with
      | some s => some (roundHalfEven s)
      | none => none
    avg_price := match price with
      | some p => some (round2 p)
      | none => none }

/-- `EVCCCollector.transform_statistics` (lines 306-331). -/
def transform_statistics (state : RawState) : StatsOut :=
  let stats := state.statistics
  { d30 := transform_period (stats.bind StatisticsRaw.d30)
    total := transform_period (stats.bind StatisticsRaw.total) }

/-- Output of `merge_variables` of the payload `EVCCCollector.collect`
assembles (lines 371-387). -/
structure MergeVars where
  site_title : String
  last_updated : String
  last_updated_local : String
  timezone : String
  currency : String
  energy : EnergyOut
  battery : BatteryOut
  loadpoints : List LoadpointOut
  loadpoint_count : Nat
  statistics : StatsOut
deriving DecidableEq

/-- The payload dict `{"merge_variables": {...}}`. -/
structure Payload where
  merge_variables : MergeVars
deriving DecidableEq

/-- `EVCCCollector.collect` (lines 346-389), given the already-fetched raw
state and the already-computed timestamp strings (the wall-clock inputs of
the cycle). -/
def collect (cfg : Config) (state : RawState)
    (utc_iso local_formatted tz_abbrev : String) : Payload :=
  let loadpoints := state.loadpoints.getD []
  { merge_variables :=
    { site_title := state.siteTitle.getD "EVCC"
      last_updated := utc_iso
      last_updated_local := local_formatted
      timezone := tz_abbrev
      currency := state.currency.getD "EUR"
      energy := transform_energy cfg.power_unit state
      battery := transform_battery cfg.power_unit state
      loadpoints := (loadpoints.take cfg.max_loadpoints).map
        (transform_loadpoint cfg.power_unit)
      loadpoint_count := loadpoints.length
      statistics := transform_statistics state } }

/-- Observable side effects of a collection cycle, in the order they are
performed. -/
inductive Eff where
  | stored (mv : MergeVars)
  | stdoutPrint
  | httpPost
deriving DecidableEq

/-- Python truthiness of the optional webhook string (`not self.webhook`,
line 406): absent or empty is falsy. -/
def webhookTruthy : Option String → Bool
  | none => false
  | some s => !(s == "")

/-- `EVCCCollector.send` (lines 391-426): the effects it performs and the
boolean it returns.  `postOk` is the outcome of the single POST were one
performed: `true` for a 2xx response, `false` for any
`requests.RequestException` (connection error, timeout, `raise_for_status`).
The `except` clause catches every delivery failure, so the function always
returns a `Bool` and never propagates an exception. -/
def send (dry_run : Bool) (webhook : Option String) (postOk : Bool) :
    List Eff × Bool :=
  if dry_run || !(webhookTruthy webhook) then ([Eff.stdoutPrint], true)
  else ([Eff.httpPost], postOk)

/-- `store_payload` (lines 435-439): overwrite the single `"evcc"` cache
slot with the payload's `merge_variables`. -/
def store_payload (slot : Option MergeVars) (payload : Payload) :
    Option MergeVars :=
  some payload.merge_variables

/-- `run_collection` (lines 493-514): one collection cycle.  `fetch` is the
outcome of `collector.collect()`'s API request (`Except.error` models the
exception path), `slot` the cache slot before the cycle, `postOk` the
would-be POST outcome.  Returns the effect trace, the cache slot after the
cycle and the cycle's reported outcome. -/
def run_collection (cfg : Config) (slot : Option MergeVars)
    (fetch : Except Unit RawState) (utc_iso local_formatted tz_abbrev : String)
    (postOk : Bool) : List Eff × Option MergeVars × Bool :=
  match fetch with
  | Except.error _ => ([], slot, false)
  | Except.ok state =>
    let payload := collect cfg state utc_iso local_formatted tz_abbrev
    let slot2 := store_payload slot payload
    let sendRes := send cfg.dry_run cfg.webhook postOk
    (Eff.stored payload.merge_variables :: sendRes.1, slot2, sendRes.2)

/-- Every `httpPost` in the trace is preceded by some `stored` effect
(`seen` records whether a store has happened yet). -/
def posts_after_store (seen : Bool) : List Eff → Bool
  | [] => true
  | Eff.stored _ :: rest => posts_after_store true rest
  | Eff.httpPost :: rest => seen && posts_after_store seen rest
  | Eff.stdoutPrint :: rest => posts_after_store seen rest

/-- Body of an HTTP response of `DataHandler`. -/
inductive RespBody where
  | endpointsList (eps : List (String × String))
  | errorMsg (msg : String)
  | dataBody (mv : MergeVars)
  | empty
deriving DecidableEq

/-- Python `path.rstrip(slash)` (line 446). -/
def rstripSlash (s : String) : String :=
  String.mk ((s.data.reverse.dropWhile (fun c => c == '/')).reverse)

/-- `DataHandler.do_GET` (lines 445-466): status code and body as a function
of the cache slot and the request path. -/
def do_GET (slot : Option MergeVars) (path : String) : Nat × RespBody :=
  let p := rstripSlash path
  if p == "" || p == "/" then
    (200, RespBody.endpointsList [("evcc", "/data/evcc")])
  else if p == "/data/evcc" then
    match slot with
    | none => (404, RespBody.errorMsg "No data collected yet")
    | some d => (200, RespBody.dataBody d)
  else (404, RespBody.empty)

/-- Fixture loadpoint of the spec's end-to-end property: mode "pv",
charging false, connected true, enabled true. -/
def fixtureLoadpoint : Loadpoint :=
  { mode := some "pv", charging := some false,
    connected := some true, enabled := some true }

/-- Fixture raw state with exactly that one loadpoint. -/
def fixtureState : RawState :=
  { loadpoints := some [fixtureLoadpoint] }

/-- Fixture configuration: `max_loadpoints = 4` and the defaults. -/
def fixtureConfig : Config :=
  { webhook := none, max_loadpoints := 4, power_unit := "auto", dry_run := false }

/-- `roundHalfEven` always returns a nearest integer: it is off by at most
one half. -/
theorem roundHalfEven_nearest (q : ℚ) : |(roundHalfEven q : ℚ) - q| ≤ 1/2 := by
  simp only [roundHalfEven]
  have h0 : ((⌊q⌋ : ℤ) : ℚ) ≤ q := Int.floor_le q
  have h1 : q < ⌊q⌋ + 1 := Int.lt_floor_add_one q
  split_ifs with hlt hgt hpar <;>
    rw [abs_le] <;> constructor <;> push_cast <;> linarith

/-- C1: `derive_status` agrees with the spec's five-branch priority list,
agrees with the equivalent order-free truth table (`charging` wins over
everything; then a disconnected loadpoint is "Disconnected"; a connected
but not enabled one is "Connected"; a connected, enabled, not charging one
is "Waiting for solar" exactly for modes "pv"/"minpv" and "Finished"
otherwise), and always returns one of the five status strings. -/
theorem derive_status_matches_spec (lp : Loadpoint) :
    derive_status lp = deriveStatusSpec lp
    ∧ derive_status lp = deriveStatusTable lp
    ∧ (derive_status lp = "Charging" ∨ derive_status lp = "Waiting for solar"
       ∨ derive_status lp = "Finished" ∨ derive_status lp = "Connected"
       ∨ derive_status lp = "Disconnected") := by
  cases hch : lp.charging.getD false <;>
    cases hco : lp.connected.getD false <;>
      cases hen : lp.enabled.getD false <;>
        cases hm : (lp.mode.getD "" == "pv" || lp.mode.getD "" == "minpv") <;>
          simp [derive_status, deriveStatusSpec, deriveStatusTable, hch, hco, hen, hm]

/-- One period's outputs are the source fields mapped through the rounding
functions; in particular each output is `none` exactly when its source is. -/
theorem transform_period_fields (pd : Option PeriodStats) :
    (transform_period pd).charged_kwh = (pd.bind PeriodStats.chargedKWh).map round1
    ∧ (transform_period pd).solar_pct =
        (pd.bind PeriodStats.solarPercentage).map roundHalfEven
    ∧ (transform_period pd).avg_price = (pd.bind PeriodStats.avgPrice).map round2 := by
  cases pd with
  | none => simp [transform_period]
  | some st =>
    rcases st with ⟨c, s, p⟩
    cases c <;> cases s <;> cases p <;> simp [transform_period]

/-- C2: for each of the two fixed periods, `transform_statistics` rounds
charged energy to 1 decimal, solar share to an integer and average price to
2 decimals, and each output field is `none` exactly when its source field
is absent (an absent source never becomes 0). -/
theorem transform_statistics_rounding_and_nulls (state : RawState) :
    ((transform_statistics state).d30.charged_kwh =
      ((state.statistics.bind StatisticsRaw.d30).bind PeriodStats.chargedKWh).map round1)
    ∧ ((transform_statistics state).d30.solar_pct =
      ((state.statistics.bind StatisticsRaw.d30).bind PeriodStats.solarPercentage).map
        roundHalfEven)
    ∧ ((transform_statistics state).d30.avg_price =
      ((state.statistics.bind StatisticsRaw.d30).bind PeriodStats.avgPrice).map round2)
    ∧ ((transform_statistics state).total.charged_kwh =
      ((state.statistics.bind StatisticsRaw.total).bind PeriodStats.chargedKWh).map round1)
    ∧ ((transform_statistics state).total.solar_pct =
      ((state.statistics.bind StatisticsRaw.total).bind PeriodStats.solarPercentage).map
        roundHalfEven)
    ∧ ((transform_statistics state).total.avg_price =
      ((state.statistics.bind StatisticsRaw.total).bind PeriodStats.avgPrice).map round2)
    ∧ ((transform_statistics state).d30.charged_kwh = none ↔
      (state.statistics.bind StatisticsRaw.d30).bind PeriodStats.chargedKWh = none)
    ∧ ((transform_statistics state).d30.solar_pct = none ↔
      (state.statistics.bind StatisticsRaw.d30).bind PeriodStats.solarPercentage = none)
    ∧ ((transform_statistics state).d30.avg_price = none ↔
      (state.statistics.bind StatisticsRaw.d30).bind PeriodStats.avgPrice = none)
    ∧ ((transform_statistics state).total.charged_kwh = none ↔
      (state.statistics.bind StatisticsRaw.total).bind PeriodStats.chargedKWh = none)
    ∧ ((transform_statistics state).total.solar_pct = none ↔
      (state.statistics.bind StatisticsRaw.total).bind PeriodStats.solarPercentage = none)
    ∧ ((transform_statistics state).total.avg_price = none ↔
      (state.statistics.bind StatisticsRaw.total).bind PeriodStats.avgPrice = none) := by
  obtain ⟨h1, h2, h3⟩ := transform_period_fields (state.statistics.bind StatisticsRaw.d30)
  obtain ⟨h4, h5, h6⟩ := transform_period_fields (state.statistics.bind StatisticsRaw.total)
  have e30 : (transform_statistics state).d30 =
      transform_period (state.statistics.bind StatisticsRaw.d30) := rfl
  have etot : (transform_statistics state).total =
      transform_period (state.statistics.bind StatisticsRaw.total) := rfl
  rw [e30, etot]
  refine ⟨h1, h2, h3, h4, h5, h6, ?_, ?_, ?_, ?_, ?_, ?_⟩ <;>
    simp [h1, h2, h3, h4, h5, h6, Option.map_eq_none]

/-- C3: `transform_energy` derives the import direction as strict positivity
of the raw grid power, reports the absolute value as the grid magnitude,
turns the green-share ratio into a half-even-rounded integer percentage,
and reads the raw grid power preferring `grid.power`, then the legacy flat
`gridPower`, then `0`. -/
theorem transform_energy_grid_and_share (unit : String) (state : RawState) :
    ((transform_energy unit state).grid_import = true ↔ 0 < grid_power_raw state)
    ∧ (transform_energy unit state).grid_power = |grid_power_raw state|
    ∧ ((transform_energy unit state).green_share_home =
        roundHalfEven (state.greenShareHome.getD 0 * 100))
    ∧ (∀ g, state.grid = some g → ∀ p, g.power = some p → grid_power_raw state = p)
    ∧ (∀ g, state.grid = some g → g.power = none →
        grid_power_raw state = state.gridPower.getD 0)
    ∧ (state.grid = none → grid_power_raw state = state.gridPower.getD 0)
    ∧ (state.grid = none → state.gridPower = none → grid_power_raw state = 0) := by
  refine ⟨?_, rfl, rfl, ?_, ?_, ?_, ?_⟩
  · simp [transform_energy]
  · intro g hg p hp
    simp [grid_power_raw, hg, hp]
  · intro g hg hp
    simp [grid_power_raw, hg, hp]
  · intro hg
    simp [grid_power_raw, hg]
  · intro hg hgp
    simp [grid_power_raw, hg, hgp]

/-- C4: `transform_battery` returns the fixed not-configured summary exactly
when the battery list is empty or absent; otherwise the total power is the
sum of per-unit powers, the state of charge is the half-even-rounded mean of
per-unit states of charge (hence a nearest integer to the mean), and
`charging` holds exactly when the total power is strictly positive. -/
theorem transform_battery_summary (unit : String) (state : RawState) :
    (transform_battery unit state =
      if (state.battery.getD []).isEmpty then
        { configured := false
          soc := 0
          power := 0
          power_formatted := format_power (some 0) unit
          charging := false }
      else
        { configured := true
          soc := roundHalfEven
            (((state.battery.getD []).map (fun b => b.soc.getD 0)).sum /
              (((state.battery.getD []).map (fun b => b.soc.getD 0)).length : ℚ))
          power := ((state.battery.getD []).map (fun b => b.power.getD 0)).sum
          power_formatted :=
            format_power (some (((state.battery.getD []).map (fun b => b.power.getD 0)).sum))
              unit
          charging := decide (0 < ((state.battery.getD []).map (fun b => b.power.getD 0)).sum) })
    ∧ ((transform_battery unit state).charging = true ↔
        ((state.battery.getD []).isEmpty = false
          ∧ 0 < ((state.battery.getD []).map (fun b => b.power.getD 0)).sum))
    ∧ ((state.battery.getD []).isEmpty = false →
        |((transform_battery unit state).soc : ℚ) -
            ((state.battery.getD []).map (fun b => b.soc.getD 0)).sum /
              (((state.battery.getD []).map (fun b => b.soc.getD 0)).length : ℚ)| ≤ 1/2) := by
  refine ⟨?_, ?_, ?_⟩
  · by_cases h : (state.battery.getD []).isEmpty <;> simp [transform_battery, h]
  · by_cases h : (state.battery.getD []).isEmpty <;> simp [transform_battery, h]
  · intro h
    have : (transform_battery unit state).soc = roundHalfEven
        (((state.battery.getD []).map (fun b => b.soc.getD 0)).sum /
          (((state.battery.getD []).map (fun b => b.soc.getD 0)).length : ℚ)) := by
      simp [transform_battery, h]
    rw [this]
    exact roundHalfEven_nearest _

/-- Evaluation lemma: `roundHalfEven 0 = 0`. -/
theorem roundHalfEven_zero : roundHalfEven 0 = 0 := by
  norm_num [roundHalfEven]

/-- C5 (amended): `format_power` uses the absolute value (sign-symmetric),
treats a missing value as `0`, yields `"0 W"` for missing/zero input under
"auto" and "W", formats "kW" with one decimal and suffix " kW", formats "W"
as the half-even-rounded integer (a nearest integer, but ties go to even,
not away from zero) with suffix " W", and under "auto" behaves as "kW"
exactly when the magnitude is at least 1000 and as "W" otherwise. -/
theorem format_power_policy (x : ℚ) (u : String) :
    format_power none u = format_power (some 0) u
    ∧ format_power (some (-x)) u = format_power (some x) u
    ∧ format_power (some x) "W" = toString (roundHalfEven |x|) ++ " W"
    ∧ format_power (some x) "kW" = fmt1 (|x| / 1000) ++ " kW"
    ∧ format_power (some x) "auto" =
        (if 1000 ≤ |x| then format_power (some x) "kW" else format_power (some x) "W")
    ∧ format_power none "auto" = "0 W"
    ∧ format_power none "W" = "0 W"
    ∧ format_power (some 0) "auto" = "0 W"
    ∧ format_power (some 0) "W" = "0 W"
    ∧ abs ((roundHalfEven |x| : ℚ) - |x|) ≤ 1/2 := by
  have hw : (if x = 0 then (0 : ℚ) else |x|) = |x| := by
    split_ifs with h
    · simp [h]
    · rfl
  have hneg : (if -x = 0 then (0 : ℚ) else |(-x)|) = (if x = 0 then (0 : ℚ) else |x|) := by
    simp [neg_eq_zero, abs_neg]
  have h0W : toString (roundHalfEven 0) ++ " W" = "0 W" := by
    rw [roundHalfEven_zero]; rfl
  refine ⟨rfl, ?_, ?_, ?_, ?_, ?_, ?_, ?_, ?_, roundHalfEven_nearest _⟩
  · simp only [format_power, hneg]
  · simp only [format_power, hw]
    rfl
  · simp only [format_power, hw]
    rfl
  · have ha1 : ("auto" == "kW") = false := rfl
    have ha2 : ("auto" == "W") = false := rfl
    have hk1 : ("kW" == "kW") = true := rfl
    have hW1 : ("W" == "kW") = false := rfl
    have hW2 : ("W" == "W") = true := rfl
    simp only [format_power, hw, ha1, ha2, hk1, hW1, hW2, Bool.false_eq_true, if_false,
      if_true]
  · simp only [format_power]
    norm_num
    exact h0W
  · simp only [format_power]
    exact h0W
  · simp only [format_power]
    norm_num
    exact h0W
  · simp only [format_power]
    norm_num
    exact h0W

/-- C5 counterexample: at input 2.5 watts with unit "W" the code prints
"2 W" (Python `round` ties to even), while rounding half away from zero as
the claim states would print "3 W". -/
theorem format_power_half_away_cex :
    format_power (some (5/2)) "W" = "2 W"
    ∧ toString (roundHalfAway (5/2 : ℚ)) ++ " W" = "3 W"
    ∧ format_power (some (5/2)) "W" ≠ toString (roundHalfAway |(5/2 : ℚ)|) ++ " W" := by
  have h1 : roundHalfEven (5/2 : ℚ) = 2 := by norm_num [roundHalfEven]
  have h2 : roundHalfAway (5/2 : ℚ) = 3 := by norm_num [roundHalfAway]
  have habs : |(5/2 : ℚ)| = 5/2 := by norm_num
  have hW : format_power (some (5/2)) "W" = toString (roundHalfEven |(5/2 : ℚ)|) ++ " W" := by
    have hw : (if (5/2 : ℚ) = 0 then (0 : ℚ) else |(5/2 : ℚ)|) = |(5/2 : ℚ)| := by
      norm_num
    simp only [format_power, hw]
    rfl
  rw [hW, habs, h1, h2]
  refine ⟨rfl, rfl, ?_⟩
  decide

/-- C6: the snapshot contains the first `min(n, max_loadpoints)` loadpoint
summaries in their original order while `loadpoint_count` is the untruncated
length; on the fixture state (one loadpoint with mode "pv", charging false,
connected true, enabled true, maximum 4) the single summary's status is
"Waiting for solar" and the count is 1. -/
theorem collect_truncates_loadpoints (cfg : Config) (state : RawState)
    (u l z : String) :
    ((collect cfg state u l z).merge_variables.loadpoints =
      ((state.loadpoints.getD []).take cfg.max_loadpoints).map
        (transform_loadpoint cfg.power_unit))
    ∧ ((collect cfg state u l z).merge_variables.loadpoints.length =
        min cfg.max_loadpoints (state.loadpoints.getD []).length)
    ∧ ((collect cfg state u l z).merge_variables.loadpoint_count =
        (state.loadpoints.getD []).length)
    ∧ ((collect fixtureConfig fixtureState u l z).merge_variables.loadpoints.map
        LoadpointOut.status = ["Waiting for solar"])
    ∧ ((collect fixtureConfig fixtureState u l z).merge_variables.loadpoint_count = 1) := by
  refine ⟨rfl, ?_, rfl, ?_, rfl⟩
  · simp [collect]
  · show [(transform_loadpoint "auto" fixtureLoadpoint).status] = ["Waiting for solar"]
    simp [transform_loadpoint, derive_status, fixtureLoadpoint]

/-- C7: in a cycle whose collection succeeded the snapshot is stored into
the cache slot before any push is attempted, the cache slot afterwards holds
that cycle's snapshot whatever the push outcome, and with a configured
webhook and no dry-run the cycle's outcome is exactly the push outcome (so
a failed push makes the cycle report failure while the cache keeps the
snapshot). -/
theorem run_collection_stores_before_send (cfg : Config) (slot : Option MergeVars)
    (state : RawState) (u l z : String) (postOk : Bool) :
    ((run_collection cfg slot (Except.ok state) u l z postOk).2.1 =
      some ((collect cfg state u l z).merge_variables))
    ∧ ((run_collection cfg slot (Except.ok state) u l z postOk).2.2 =
        (if cfg.dry_run || !(webhookTruthy cfg.webhook) then true else postOk))
    ∧ (posts_after_store false (run_collection cfg slot (Except.ok state) u l z postOk).1 =
        true)
    ∧ ((run_collection cfg slot (Except.ok state) u l z false).2.1 =
        (run_collection cfg slot (Except.ok state) u l z true).2.1) := by
  refine ⟨rfl, ?_, ?_, rfl⟩
  · by_cases h : (cfg.dry_run || !(webhookTruthy cfg.webhook)) = true <;>
      simp [run_collection, send, h]
  · by_cases h : (cfg.dry_run || !(webhookTruthy cfg.webhook)) = true <;>
      simp [run_collection, send, h, posts_after_store]

/-- C8: with dry-run set or no (truthy) webhook configured, `send` prints to
standard output, performs no POST and reports success; otherwise it performs
exactly one POST and returns the POST outcome.  It is a total function into
`List Eff × Bool`: every delivery failure is already folded into the
`postOk` boolean by the `except` clause, so no exception reaches the
caller. -/
theorem send_dry_run_and_post (dry : Bool) (webhook : Option String) (postOk : Bool) :
    (send dry webhook postOk =
      (if dry || !(webhookTruthy webhook) then ([Eff.stdoutPrint], true)
       else ([Eff.httpPost], postOk)))
    ∧ (send true webhook postOk).2 = true
    ∧ (send dry none postOk).2 = true
    ∧ (send true webhook postOk).1 = [Eff.stdoutPrint]
    ∧ (send dry none postOk).1 = [Eff.stdoutPrint]
    ∧ Eff.httpPost ∉ (send true webhook postOk).1
    ∧ Eff.httpPost ∉ (send dry none postOk).1
    ∧ ((send dry webhook postOk).1.count Eff.httpPost ≤ 1) := by
  refine ⟨rfl, ?_, ?_, ?_, ?_, ?_, ?_, ?_⟩ <;>
    by_cases h : (dry || !(webhookTruthy webhook)) = true <;>
      simp_all [send, webhookTruthy]

/-- C9: a GET on `/data/evcc` is a 404 with the structured error body while
the slot is empty, and a 200 with exactly the most recently stored
payload's merge variables once a store has happened; a store overwrites the
slot with the new payload alone, whatever the slot held before. -/
theorem cache_get_after_store (slot : Option MergeVars) (p p1 p2 : Payload) :
    do_GET none "/data/evcc" = (404, RespBody.errorMsg "No data collected yet")
    ∧ do_GET (store_payload slot p) "/data/evcc" = (200, RespBody.dataBody p.merge_variables)
    ∧ store_payload (store_payload slot p1) p2 = some p2.merge_variables
    ∧ store_payload slot p = some p.merge_variables := by
  exact ⟨rfl, rfl, rfl, rfl⟩

/-- C10: a GET on the root path returns 200 with the constant endpoint
listing whatever the cache slot holds (even before any store), while the
advertised data path still returns 404 when nothing is stored. -/
theorem root_listing_constant (slot : Option MergeVars) :
    do_GET slot "/" = (200, RespBody.endpointsList [("evcc", "/data/evcc")])
    ∧ do_GET slot "" = (200, RespBody.endpointsList [("evcc", "/data/evcc")])
    ∧ (do_GET none "/data/evcc").1 = 404 := by
  exact ⟨rfl, rfl, rfl⟩
